import Mathlib

/-!
Shallow embedding of `telemetry_email_alerter.py` (a CloudVision telemetry to
email bridge).  JSON dictionaries whose shape matters to the properties are
embedded as typed structures mirroring the accesses the script performs; the
device directory `self.devices` is embedded as a partial map
`String → Option String`.  Code paths on which Python raises (`KeyError`,
`IndexError`, `json.loads` failures) are embedded in the `Except Err` monad.
-/

namespace Telemetry

/-- The device directory `self.devices`: a Python dict from device serial
number to hostname, embedded as a partial map. -/
abbrev Dir := String → Option String

/-- The empty directory (`self.devices = \x7b\x7d` in `__init__`). -/
def empty_directory : Dir := fun _ => none

/-- Python dict assignment `d[k] = v`. -/
def dictInsert (d : Dir) (k v : String) : Dir :=
  fun x => if x = k then some v else d x

/-- Python `d.get(k, dflt)` where the looked-up key may itself be `None`
(`data.get('deviceId')` can return `None`): an absent or `None` key yields
the default. -/
def dictGet (d : Dir) (k dflt : Option String) : Option String :=
  match k with
  | some s =>
    match d s with
    | some v => some v
    | none => dflt
  | none => dflt

/-- Line 240, `self.devices.get(x, x)`: resolve a device id to its mapped
hostname, degrading to the raw id itself when the id is unmapped. -/
def resolve (d : Dir) (k : String) : String :=
  (d k).getD k

/-- A JSON object of shape `\x7b'value': v\x7d`; the script reads `['value']`. -/
structure ValueBox (α : Type) where
  value : α
  deriving DecidableEq

/-- The object stored under an event's `updates.data.value`: the script
reads `data.get('deviceId')`, which may be absent. -/
structure DataVal where
  deviceId : Option String
  deriving DecidableEq

/-- `event['updates']` of an event notification.  `data` may be absent
(line 230 tests membership before any other access); the remaining four
fields are read unconditionally with `['...']['value']`, so an absent one
raises `KeyError`. -/
structure EventUpdates where
  data : Option (ValueBox DataVal)
  severity : Option (ValueBox String)
  title : Option (ValueBox String)
  description : Option (ValueBox String)
  timestamp : Option (ValueBox Nat)
  deriving DecidableEq

/-- One event notification (`event` in `send_email`). -/
structure Event where
  updates : EventUpdates
  deriving DecidableEq

/-- The object stored under a device entry's `value`: the script reads
`value['value']['hostname']`. -/
structure HostVal where
  hostname : String
  deriving DecidableEq

/-- One device-update notification (`devices` in `process_devices`):
`devices['updates']` maps serial number to `\x7b'value': \x7b'hostname': h\x7d\x7d`,
embedded as the items list of that dict. -/
structure DeviceBatch where
  updates : List (String × ValueBox HostVal)
  deriving DecidableEq

/-- The content of one `self.server.sendmail` call as built by
`send_email`: severity/title/description from the `.value` sub-fields,
the resolved host (`None` when `deviceId` is absent), and the timestamp
converted from epoch milliseconds to epoch seconds (line 244, Python 2
integer division). -/
structure Alert where
  severity : String
  title : String
  description : String
  host : Option String
  occurredAt : Nat
  deriving DecidableEq

/-- A Python exception escaping a frame handler. -/
inductive Err where
  | parseError
  | keyError
  | indexError
  deriving DecidableEq

/-- One element of a `Notifications` array: either event-shaped or
device-update-shaped. -/
inductive Notif where
  | event (e : Event)
  | devices (b : DeviceBatch)
  deriving DecidableEq

/-- One element of a frame's `result` array. -/
structure ResultElem where
  notifications : List Notif
  deriving DecidableEq

/-- A parsed inbound frame: `data['token']` plus the optional `result`
key (lines 165 and 170 test `'result' in data`). -/
structure FrameData where
  token : String
  result : Option (List ResultElem)
  deriving DecidableEq

/-- An inbound websocket message: either malformed (unparseable JSON, or
missing the `token` key that line 164 reads unconditionally) or a parsed
frame. -/
inductive Msg where
  | malformed
  | frame (f : FrameData)
  deriving DecidableEq

/-- The mutable connection state of `TelemetryWs` read and written by
`on_message`. -/
structure State where
  devices : Dir
  devices_get_token : Option String
  devices_sub_token : Option String
  events_token : Option String

/-- `process_devices` (lines 216-224): for each `(key, value)` in
`devices['updates'].items()`, perform
`self.devices[key] = value['value']['hostname']`. -/
def process_devices (dir : Dir) (devices : DeviceBatch) : Dir :=
  devices.updates.foldl (fun d kv => dictInsert d kv.1 kv.2.value.hostname) dir

/-- `send_email` (lines 226-262) with its side effect reified: the list of
`sendmail` calls made (empty when `updates` lacks `data`, line 230), or
the `KeyError` that escapes when a required field is absent. -/
def send_email (devices : Dir) (event : Event) : Except Err (List Alert) :=
  match event.updates.data with
  | none => .ok []
  | some dataBox =>
    let data := dataBox.value
    let host := dictGet devices data.deviceId data.deviceId
    match event.updates.severity with
    | none => .error .keyError
    | some sev =>
      match event.updates.title with
      | none => .error .keyError
      | some t =>
        match event.updates.description with
        | none => .error .keyError
        | some desc =>
          match event.updates.timestamp with
          | none => .error .keyError
          | some ts =>
            .ok [⟨sev.value, t.value, desc.value, host, ts.value / 1000⟩]

/-- The events loop of `on_message` (lines 166-167): `for event in
data['result'][0]['Notifications']: self.send_email(event)`.  A
device-shaped element carries no `data` key under its `updates`, so
`send_email` returns silently on it. -/
def send_emails (devices : Dir) (notifs : List Notif) : Except Err (List Alert) :=
  match notifs with
  | [] => .ok []
  | n :: rest =>
    match n with
    | .event e =>
      match send_email devices e with
      | .error err => .error err
      | .ok sent =>
        match send_emails devices rest with
        | .error err => .error err
        | .ok more => .ok (sent ++ more)
    | .devices _ => send_emails devices rest

/-- `on_message` (lines 159-172) with its effects reified: the updated
state and the list of `sendmail` calls, or the exception escaping the
handler (`json.loads` failure, `KeyError`, or the `IndexError` from
`data['result'][0]` or `switch_updates[len(switch_updates) - 1]`). -/
def on_message (st : State) (msg : Msg) : Except Err (State × List Alert) :=
  match msg with
  | .malformed => .error .parseError
  | .frame data =>
    if some data.token = st.events_token then
      match data.result with
      | some res =>
        match res with
        | [] => .error .indexError
        | elem :: _ =>
          match send_emails st.devices elem.notifications with
          | .error e => .error e
          | .ok sent => .ok (st, sent)
      | none => .ok (st, [])
    else if some data.token = st.devices_get_token ∨ some data.token = st.devices_sub_token then
      match data.result with
      | some res =>
        match res with
        | [] => .error .indexError
        | elem :: _ =>
          match elem.notifications.getLast? with
          | none => .error .indexError
          | some (Notif.devices b) => .ok ({ st with devices := process_devices st.devices b }, [])
          | some (Notif.event _) => .error .keyError
      | none => .ok (st, [])
    else .ok (st, [])

/-- Result of driving the inbound loop over a list of messages: final
state, all `sendmail` calls, and all logged frame-handling errors. -/
structure RunResult where
  final : State
  alerts : List Alert
  errors : List Err

/-- Modelled from the spec: the inbound run loop (the websocket library's
`run_forever` callback dispatch, which is not part of this repository's
source).  Per the spec, an exception escaping one frame's handler is
logged as a protocol error and that frame dropped while the connection
remains open; processing continues with the next frame from an unchanged
state. -/
def run_loop (st : State) (msgs : List Msg) : RunResult :=
  match msgs with
  | [] => ⟨st, [], []⟩
  | m :: rest =>
    match on_message st m with
    | .ok (st2, sent) =>
      let r := run_loop st2 rest
      ⟨r.final, sent ++ r.alerts, r.errors⟩
    | .error e =>
      let r := run_loop st rest
      ⟨r.final, r.alerts, e :: r.errors⟩

/-- A value of the serialized request dict: the `token`, `command` and
`version` fields are strings; the args field holds the request arguments. -/
inductive WireVal (α : Type) where
  | str (s : String)
  | obj (a : α)
  deriving DecidableEq

/-- Key lookup in the serialized request dict. -/
def wireLookup {α : Type} (k : String) : List (String × WireVal α) → Option (WireVal α)
  | [] => none
  | kv :: rest => if kv.1 = k then some kv.2 else wireLookup k rest

/-- `send_message` (lines 119-130): the dict serialized onto the socket,
`\x7b'token': token, 'command': command, arg_name: args, 'version': version\x7d`
with `arg_name = 'args' if version == '0.9.0' else 'params'`. -/
def send_message {α : Type} (command token : String) (args : α) (version : String) :
    List (String × WireVal α) :=
  let arg_name := if version = "0.9.0" then "args" else "params"
  [("token", WireVal.str token), ("command", WireVal.str command),
    (arg_name, WireVal.obj args), ("version", WireVal.str version)]

/-- `string.ascii_uppercase`. -/
def ascii_uppercase : String := "ABCDEFGHIJKLMNOPQRSTUVWXYZ"

/-- `string.digits`. -/
def string_digits : String := "0123456789"

/-- The alphabet `make_token` samples seed characters from (line 154). -/
def seed_alphabet : String := ascii_uppercase ++ string_digits

/-- The seed length used by `make_token` (`for _ in range(20)`). -/
def seed_length : Nat := 20

/-- The number of distinct seed strings `make_token` can feed into
SHA-256 before truncation of the digest. -/
def seed_space : Nat := seed_alphabet.length ^ seed_length

/-- The hostname written for key `k` by the last item of one update batch
that mentions `k`, if any. -/
def lastAssignList (l : List (String × ValueBox HostVal)) (k : String) : Option String :=
  match l with
  | [] => none
  | kv :: rest =>
    match lastAssignList rest k with
    | some h => some h
    | none => if k = kv.1 then some kv.2.value.hostname else none

/-- The hostname written for `k` by the last batch of `bs` that mentions
`k`, if any. -/
def lastAssignBatches (bs : List DeviceBatch) (k : String) : Option String :=
  match bs with
  | [] => none
  | b :: rest =>
    match lastAssignBatches rest k with
    | some h => some h
    | none => lastAssignList b.updates k

/-- Applying a sequence of update batches in arrival order (the snapshot
first when present, then each subscription update batch). -/
def applyBatches (dir : Dir) (bs : List DeviceBatch) : Dir :=
  bs.foldl process_devices dir

/-- The first option when present, else the fallback. -/
def orLookup (o fallback : Option String) : Option String :=
  match o with
  | some h => some h
  | none => fallback

/-- Fixture: a directory holding one device. -/
def devEx : Dir := dictInsert empty_directory "dev1" "switch1"

/-- Fixture: a snapshot mapping device A to host1. -/
def snapshotA : Dir := dictInsert empty_directory "A" "host1"

/-- Fixture: an update batch mapping device B to host2. -/
def batchB : DeviceBatch := ⟨[("B", ⟨⟨"host2"⟩⟩)]⟩

/-- Fixture: an update batch remapping device A to host3. -/
def batchA3 : DeviceBatch := ⟨[("A", ⟨⟨"host3"⟩⟩)]⟩

/-- Fixture: an event notification whose `updates` lacks `data`. -/
def eventNoData : Event := ⟨⟨none, some ⟨"CRITICAL"⟩, some ⟨"Title"⟩, some ⟨"Desc"⟩, some ⟨1700000000000⟩⟩⟩

/-- Fixture: a complete event notification for device dev1. -/
def eventWithData : Event :=
  ⟨⟨some ⟨⟨some "dev1"⟩⟩, some ⟨"CRITICAL"⟩, some ⟨"Title"⟩, some ⟨"Desc"⟩, some ⟨1700000000000⟩⟩⟩

/-- Fixture: a connection state with all three tokens registered. -/
def stEx : State := ⟨devEx, some "gtok", some "stok", some "etok"⟩

/-- Fixture: a frame carrying a token registered with no handler. -/
def frameUnknown : FrameData := ⟨"other", some [⟨[]⟩]⟩

/-- Fixture: an acknowledgement frame (registered token, no `result`). -/
def frameAck : FrameData := ⟨"etok", none⟩

/-- Fixture: an earlier device batch, superseded within one frame. -/
def batchOld : DeviceBatch := ⟨[("A", ⟨⟨"old"⟩⟩)]⟩

/-- Fixture: the final device batch of a two-batch frame. -/
def batchNew : DeviceBatch := ⟨[("A", ⟨⟨"new"⟩⟩)]⟩

/-- Fixture: a result element holding two device batches. -/
def elemTwoBatches : ResultElem := ⟨[Notif.devices batchOld, Notif.devices batchNew]⟩

/-- Fixture: a device-get frame whose result holds two batches. -/
def frameDevices : FrameData := ⟨"gtok", some [elemTwoBatches]⟩

/-- Fixture: a device-subscribe frame whose Notifications list is empty. -/
def frameDevicesEmpty : FrameData := ⟨"stok", some [⟨[]⟩]⟩

theorem lastAssignList_cons (kv : String × ValueBox HostVal)
    (rest : List (String × ValueBox HostVal)) (k : String) :
    lastAssignList (kv :: rest) k =
      match lastAssignList rest k with
      | some h => some h
      | none => if k = kv.1 then some kv.2.value.hostname else none := rfl

theorem lastAssignBatches_cons (b : DeviceBatch) (rest : List DeviceBatch) (k : String) :
    lastAssignBatches (b :: rest) k =
      match lastAssignBatches rest k with
      | some h => some h
      | none => lastAssignList b.updates k := rfl

theorem foldl_dictInsert_lookup (l : List (String × ValueBox HostVal)) (dir : Dir) (k : String) :
    (l.foldl (fun d kv => dictInsert d kv.1 kv.2.value.hostname) dir) k
      = orLookup (lastAssignList l k) (dir k) := by
  induction l generalizing dir with
  | nil => rfl
  | cons kv rest ih =>
    rw [List.foldl_cons, ih, lastAssignList_cons]
    cases hrest : lastAssignList rest k with
    | some h => simp [orLookup]
    | none =>
      by_cases hk : k = kv.1 <;> simp [orLookup, dictInsert, hk]

theorem process_devices_lookup (dir : Dir) (b : DeviceBatch) (k : String) :
    process_devices dir b k = orLookup (lastAssignList b.updates k) (dir k) :=
  foldl_dictInsert_lookup b.updates dir k

theorem applyBatches_lookup (dir : Dir) (bs : List DeviceBatch) (k : String) :
    applyBatches dir bs k = orLookup (lastAssignBatches bs k) (dir k) := by
  induction bs generalizing dir with
  | nil => rfl
  | cons b rest ih =>
    have h1 : applyBatches dir (b :: rest) k = applyBatches (process_devices dir b) rest k := rfl
    rw [h1, ih, lastAssignBatches_cons]
    cases hrest : lastAssignBatches rest k with
    | some h => simp [orLookup]
    | none =>
      rw [process_devices_lookup]
      cases hb : lastAssignList b.updates k <;> simp [orLookup]

/-- C1: after applying a snapshot/update-batch sequence in arrival order,
each device id maps to the hostname carried by the last batch mentioning
it; ids mentioned by no batch keep their previous mapping; and no
`process_devices` call ever removes an entry from the directory. -/
theorem c1_directory_merge (dir : Dir) (bs : List DeviceBatch) (k : String) :
    applyBatches dir bs k = orLookup (lastAssignBatches bs k) (dir k)
    ∧ (∀ b : DeviceBatch, dir k ≠ none → process_devices dir b k ≠ none) := by
  refine ⟨applyBatches_lookup dir bs k, fun b hne => ?_⟩
  rw [process_devices_lookup]
  cases hb : lastAssignList b.updates k with
  | some h => simp [orLookup]
  | none => simpa [orLookup] using hne

/-- C1 witness: the spec's concrete example — snapshot A↦host1, then
batches B↦host2 and A↦host3, ending with A↦host3 and B↦host2 — and a
call that cannot erase A's entry. -/
theorem c1_directory_merge_witness :
    applyBatches snapshotA [batchB, batchA3] "A" = some "host3"
    ∧ applyBatches snapshotA [batchB, batchA3] "B" = some "host2"
    ∧ process_devices snapshotA batchB "A" ≠ none := by
  refine ⟨?_, ?_, (c1_directory_merge snapshotA [] "A").2 batchB (by decide)⟩
  · rw [(c1_directory_merge snapshotA [batchB, batchA3] "A").1]; rfl
  · rw [(c1_directory_merge snapshotA [batchB, batchA3] "B").1]; rfl

/-- C2: an event whose `updates` lacks `data` produces zero sendmail calls
and no error; one carrying `data` together with the four required fields
produces exactly one alert whose severity, title, description and
timestamp come from the respective `.value` sub-fields and whose host is
resolved through the device directory. -/
theorem c2_event_filter (devices : Dir) (e : Event) :
    (e.updates.data = none → send_email devices e = .ok [])
    ∧ (∀ dv sev t desc ts,
        e.updates.data = some dv → e.updates.severity = some sev →
        e.updates.title = some t → e.updates.description = some desc →
        e.updates.timestamp = some ts →
        send_email devices e =
          .ok [⟨sev.value, t.value, desc.value,
                Option.map (resolve devices) dv.value.deviceId, ts.value / 1000⟩]) := by
  constructor
  · intro h
    simp only [send_email, h]
  · intro dv sev t desc ts hd hs ht hdesc hts
    simp only [send_email, hd, hs, ht, hdesc, hts]
    cases hid : dv.value.deviceId with
    | none => simp [dictGet]
    | some id =>
      simp only [dictGet, Option.map, resolve]
      cases devices id <;> simp [Option.getD]

/-- C2 witness: a concrete event without `data` is discarded silently and
a complete one yields exactly one alert with the resolved host and the
millisecond timestamp converted to seconds. -/
theorem c2_event_filter_witness :
    send_email devEx eventNoData = .ok []
    ∧ send_email devEx eventWithData =
        .ok [⟨"CRITICAL", "Title", "Desc", some "switch1", 1700000000⟩] := by
  constructor
  · exact (c2_event_filter devEx eventNoData).1 rfl
  · rw [(c2_event_filter devEx eventWithData).2 ⟨⟨some "dev1"⟩⟩ ⟨"CRITICAL"⟩ ⟨"Title"⟩ ⟨"Desc"⟩
      ⟨1700000000000⟩ rfl rfl rfl rfl rfl]
    rfl

/-- C3: the serialized request places the arguments under the `args` key
exactly when the version is 0.9.0 and under `params` for any other
version — never both — alongside the `token`, `command` and `version`
fields. -/
theorem c3_versioned_args {α : Type} (command token : String) (args : α) (version : String) :
    wireLookup "token" (send_message command token args version) = some (WireVal.str token)
    ∧ wireLookup "command" (send_message command token args version) = some (WireVal.str command)
    ∧ wireLookup "version" (send_message command token args version) = some (WireVal.str version)
    ∧ (if version = "0.9.0"
       then wireLookup "args" (send_message command token args version) = some (WireVal.obj args)
            ∧ wireLookup "params" (send_message command token args version) = none
       else wireLookup "params" (send_message command token args version) = some (WireVal.obj args)
            ∧ wireLookup "args" (send_message command token args version) = none) := by
  by_cases h : version = "0.9.0"
  · subst h
    exact ⟨rfl, rfl, rfl, by rw [if_pos rfl]; exact ⟨rfl, rfl⟩⟩
  · rw [if_neg h]
    simp only [send_message, if_neg h]
    exact ⟨rfl, rfl, rfl, rfl, rfl⟩

/-- C3 witness: version 0.9.0 serializes under `args`, version 1.0.0
under `params`. -/
theorem c3_versioned_args_witness :
    wireLookup "args" (send_message "get" "tok1" (0 : Nat) "0.9.0") = some (WireVal.obj 0)
    ∧ wireLookup "params" (send_message "subscribe" "tok2" (0 : Nat) "1.0.0")
        = some (WireVal.obj 0) := by
  constructor
  · have h := (c3_versioned_args "get" "tok1" (0 : Nat) "0.9.0").2.2.2
    rw [if_pos rfl] at h
    exact h.1
  · have h := (c3_versioned_args "subscribe" "tok2" (0 : Nat) "1.0.0").2.2.2
    rw [if_neg (by decide)] at h
    exact h.1

/-- C4: a frame whose token matches none of the three registered tokens,
or whose token matches but that lacks a `result` key, is silently
ignored: the state (device directory included) is unchanged, no sendmail
call is made, and no error is raised. -/
theorem c4_unknown_or_ack_ignored (st : State) (f : FrameData)
    (h : (¬ some f.token = st.events_token ∧ ¬ some f.token = st.devices_get_token
            ∧ ¬ some f.token = st.devices_sub_token)
         ∨ f.result = none) :
    on_message st (.frame f) = .ok (st, []) := by
  rcases h with ⟨h1, h2, h3⟩ | hres
  · simp only [on_message, if_neg h1, if_neg (not_or.mpr ⟨h2, h3⟩)]
  · simp only [on_message, hres]
    by_cases h1 : some f.token = st.events_token
    · rw [if_pos h1]
    · rw [if_neg h1]
      by_cases h2 : some f.token = st.devices_get_token ∨ some f.token = st.devices_sub_token
      · rw [if_pos h2]
      · rw [if_neg h2]

/-- C4 witness: an out-of-registry token and an acknowledgement frame on
a registered token are both ignored. -/
theorem c4_unknown_or_ack_ignored_witness :
    on_message stEx (.frame frameUnknown) = .ok (stEx, [])
    ∧ on_message stEx (.frame frameAck) = .ok (stEx, []) :=
  ⟨c4_unknown_or_ack_ignored stEx frameUnknown (.inl ⟨by decide, by decide, by decide⟩),
   c4_unknown_or_ack_ignored stEx frameAck (.inr rfl)⟩

/-- C5: a device-handler frame carrying a `result` applies only the last
batch of its Notifications list to the device directory; every earlier
batch in the frame is ignored. -/
theorem c5_last_batch_only (st : State) (f : FrameData) (elem : ResultElem)
    (rest : List ResultElem) (earlier : List Notif) (b : DeviceBatch)
    (hev : ¬ some f.token = st.events_token)
    (hdev : some f.token = st.devices_get_token ∨ some f.token = st.devices_sub_token)
    (hres : f.result = some (elem :: rest))
    (hn : elem.notifications = earlier ++ [Notif.devices b]) :
    on_message st (.frame f) = .ok ({ st with devices := process_devices st.devices b }, []) := by
  simp only [on_message, if_neg hev, if_pos hdev, hres, hn, List.getLast?_concat]

/-- C5 witness: a device frame with two batches updates the directory
with the second batch only. -/
theorem c5_last_batch_only_witness :
    on_message stEx (.frame frameDevices)
      = .ok ({ stEx with devices := process_devices stEx.devices batchNew }, []) :=
  c5_last_batch_only stEx frameDevices elemTwoBatches [] [Notif.devices batchOld] batchNew
    (by decide) (.inl (by decide)) rfl rfl

/-- C6: `resolve` returns the mapped hostname when the device id has a
mapping and the raw id itself otherwise; in particular, on the empty
directory `resolve` of "unknown-id" is "unknown-id". -/
theorem c6_resolve_fallback (d : Dir) (k : String) :
    (∀ h, d k = some h → resolve d k = h)
    ∧ (d k = none → resolve d k = k)
    ∧ resolve empty_directory "unknown-id" = "unknown-id" := by
  refine ⟨fun h hk => ?_, fun hk => ?_, rfl⟩
  · unfold resolve
    rw [hk]
    rfl
  · unfold resolve
    rw [hk]
    rfl

/-- C6 witness: a mapped id resolves to its hostname, an unmapped one to
itself. -/
theorem c6_resolve_fallback_witness :
    resolve devEx "dev1" = "switch1" ∧ resolve devEx "unknown-id" = "unknown-id" :=
  ⟨(c6_resolve_fallback devEx "dev1").1 "switch1" rfl,
   (c6_resolve_fallback devEx "unknown-id").2.1 rfl⟩

/-- C7: a message on which the frame handler errors only logs that error:
the run loop continues with the remaining messages from an unchanged
state, and a malformed message always yields the protocol parse error. -/
theorem c7_frame_error_isolated (st : State) (m : Msg) (rest : List Msg) (e : Err)
    (h : on_message st m = .error e) :
    run_loop st (m :: rest)
      = ⟨(run_loop st rest).final, (run_loop st rest).alerts, e :: (run_loop st rest).errors⟩
    ∧ on_message st Msg.malformed = .error Err.parseError := by
  constructor
  · simp only [run_loop, h]
  · rfl

/-- C7 witness: a malformed message is dropped with a logged parse error
and the loop goes on. -/
theorem c7_frame_error_isolated_witness :
    run_loop stEx [Msg.malformed, Msg.frame frameAck]
      = ⟨(run_loop stEx [Msg.frame frameAck]).final,
         (run_loop stEx [Msg.frame frameAck]).alerts,
         Err.parseError :: (run_loop stEx [Msg.frame frameAck]).errors⟩ :=
  (c7_frame_error_isolated stEx Msg.malformed [Msg.frame frameAck] Err.parseError rfl).1

/-- C8 counterexample: the pre-truncation seed space of `make_token` is
strictly below 2^128, so the claimed 128-bit entropy floor does not hold
of the code. -/
theorem c8_seed_space_counterexample : seed_space < 2 ^ 128 := by decide

/-- C8 amended: the seed is 20 characters drawn from a 36-symbol
alphabet, so the pre-truncation seed space is exactly 36^20 — more than
2^103 but less than 2^128. -/
theorem c8_seed_space_size :
    seed_space = 36 ^ 20 ∧ 2 ^ 103 ≤ seed_space ∧ seed_space < 2 ^ 128 := by
  refine ⟨?_, ?_, ?_⟩ <;> decide

/-- C10: a device-handler frame carrying a `result` whose first element
has an empty Notifications list raises an IndexError — the out-of-bounds
`switch_updates[len(switch_updates) - 1]` — instead of being silently
ignored. -/
theorem c10_empty_notifications_error (st : State) (f : FrameData) (elem : ResultElem)
    (rest : List ResultElem)
    (hev : ¬ some f.token = st.events_token)
    (hdev : some f.token = st.devices_get_token ∨ some f.token = st.devices_sub_token)
    (hres : f.result = some (elem :: rest))
    (hn : elem.notifications = []) :
    on_message st (.frame f) = .error Err.indexError := by
  simp only [on_message, if_neg hev, if_pos hdev, hres, hn, List.getLast?_nil]

/-- C10 witness: a device-subscription frame with an empty Notifications
list errors with an IndexError. -/
theorem c10_empty_notifications_error_witness :
    on_message stEx (.frame frameDevicesEmpty) = .error Err.indexError :=
  c10_empty_notifications_error stEx frameDevicesEmpty ⟨[]⟩ []
    (by decide) (.inr (by decide)) rfl rfl

end Telemetry
